import Mathlib

/-!
Verification model of the on-demand multi-format CAD export/download flow of
text-to-cad-ui.

Client side (src/src/components/DownloadButton.svelte): the `updateOutput`
handler is a state machine over the shared component state
(`currentOutput`, `status`, `outputs`, `outputData`).  It is embedded here as
a synchronous prefix `updatePre` (everything up to the `await fetch`) and a
continuation `updateCont` (everything after the response arrives); the
single-call behaviour `updateOutput` is their composition.  JavaScript
truthiness of strings and `undefined` is modelled with `Option String`
(`none` = `undefined`, `some ""` = empty string, both falsy).

Server side (src/src/routes/api/convert/[output_format]/+server.ts): the
`POST` proxy handler is embedded as `convertPOST`, with the upstream
conversion service supplied as a parameter and the issued upstream requests
returned explicitly.
-/

/-- Modelled from the spec: the supported format → content type table
`CADMIMETypes` lives in `$lib/endpoints`, which is not under src/; the spec
fixes the table exactly (it is an external contract with the conversion
service). -/
def CADMIMETypes : List (String × String) :=
  [ ("fbx", "application/octet-stream")
  , ("glb", "model/gltf-binary")
  , ("gltf", "model/gltf+json")
  , ("obj", "application/octet-stream")
  , ("ply", "application/octet-stream")
  , ("stl", "application/sla")
  , ("step", "application/STEP") ]

/-- UI status of the download control (DownloadButton.svelte line 17). -/
inductive Status
  | loading
  | ready
  | failed
deriving DecidableEq, Repr

/-- The shared `outputs` mapping: a JS object from a format-qualified key
(e.g. "source.gltf") to a base64 payload string.  A value of `none` models a
key explicitly set to `undefined`; an absent key and a `none` value are
indistinguishable to the component (both falsy). -/
abbrev OutMap := List (String × Option String)

/-- JS property read `outputs[k]`: `none` when the key is absent or holds
`undefined`. -/
def getOut (m : OutMap) (k : String) : Option String :=
  match m.lookup k with
  | some v => v
  | none => none

/-- JS truthiness of a string-or-undefined value: `undefined` and `""` are
falsy, every other string is truthy. -/
def optTruthy : Option String → Bool
  | some s => !s.isEmpty
  | none => false

/-- Truthiness of `outputs[k]` (the cache-hit test of DownloadButton line 49). -/
def truthyAt (m : OutMap) (k : String) : Bool :=
  optTruthy (getOut m k)

/-- JS property write `outputs[k] = v` (assigning `undefined` keeps the key
with an `undefined` value, modelled by `v = none`). -/
def setOut (m : OutMap) (k : String) (v : Option String) : OutMap :=
  (k, v) :: m

/-- Modelled from the spec: `base64ToBlob` (`$lib/base64ToBlob`, not under
src/) decodes a base64 string into raw bytes for use as a request body.
Decoding is injective, so the blob is represented by the base64 text it was
decoded from; `none` models passing a JS `undefined` through. -/
structure Blob where
  fromBase64 : Option String
deriving DecidableEq, Repr

def base64ToBlob (s : Option String) : Blob := ⟨s⟩

/-- A conversion request issued by the client (DownloadButton lines 52–57).
`target` is the path parameter passed to `endpoints.localConvert`
(modelled from the spec: `$lib/endpoints` is not under src/; the spec says
the target format is a path parameter of the client-side conversion URL). -/
structure ConvRequest where
  target : String
  contentType : String
  body : Blob
deriving DecidableEq, Repr

/-- Parsed JSON body of a conversion response as the client reads it.
`falsy = true` models the JSON value parsing to a falsy value (e.g. `null`),
in which case the field reads are never reached; `statusCode = none` and
`outputs = none` model absent fields (JS `undefined`). -/
structure RespBody where
  falsy : Bool
  statusCode : Option Int
  outputs : Option (List (String × String))
deriving DecidableEq, Repr

/-- A conversion HTTP response as the client observes it: `ok` is
`response.ok`; `body = none` models `response.json()` rejecting (body not
parseable as JSON). -/
structure ConvResp where
  ok : Bool
  body : Option RespBody
deriving DecidableEq, Repr

/-- The client's embedded status-code test
`responseData.statusCode.toString().startsWith('2')` (DownloadButton
line 60): the decimal rendering of the status code starts with the character
2.  Stated on the rendered string's character list (equivalent to
String.startsWith for a one-character pattern). -/
def startsWith2 (n : Int) : Bool :=
  match (toString n).data with
  | c :: _ => c = '2'
  | [] => false

/-- The component state shared by all `updateOutput` invocations:
`currentOutput`, `status`, the `outputs` cache and `outputData`
(DownloadButton lines 15–17). -/
structure SharedState where
  currentOutput : String
  status : Status
  outputs : OutMap
  outputData : Option String
deriving DecidableEq, Repr

/-- Result of the synchronous prefix of `updateOutput`: either the handler
finished without fetching (recording how many downloads it triggered), or it
issued a conversion request and suspended. -/
inductive PreAction
  | done (clicks : Nat)
  | fetching (req : ConvRequest)
deriving DecidableEq, Repr

/-- The tail of `updateOutput` (DownloadButton lines 69–73):
`status = outputData ? 'ready' : 'failed'` followed by a `link.click()` when
`outputData` is truthy.  Returns the new state and the number of download
triggers. -/
def finishDownload (s : SharedState) : SharedState × Nat :=
  if optTruthy s.outputData then
    ({ s with status := Status.ready }, 1)
  else
    ({ s with status := Status.failed }, 0)

/-- Synchronous prefix of `updateOutput` (DownloadButton lines 34–57): set
`currentOutput` and `status = loading`; handle the kcl pseudo-format with no
network call; on a cache hit copy the cached payload into `outputData` and
finish; on a cache miss issue the conversion request (target format as path
parameter, base64-decoded `outputs['source.gltf']` as body) and suspend. -/
def updatePre (code : String) (s : SharedState) (value : String) :
    SharedState × PreAction :=
  let s1 : SharedState := { s with currentOutput := value, status := Status.loading }
  if value = "kcl" then
    if code.isEmpty then
      ({ s1 with status := Status.failed }, PreAction.done 0)
    else
      ({ s1 with status := Status.ready }, PreAction.done 1)
  else if truthyAt s1.outputs ("source." ++ value) then
    let s2 : SharedState := { s1 with outputData := getOut s1.outputs ("source." ++ value) }
    let fin := finishDownload s2
    (fin.1, PreAction.done fin.2)
  else
    (s1, PreAction.fetching
      { target := value
      , contentType := "application/octet-stream"
      , body := base64ToBlob (getOut s1.outputs "source.gltf") })

/-- How the continuation of `updateOutput` finished: normally (with a number
of download triggers), or by an exception escaping the handler (in which case
no further statement of the handler ran and `status` keeps its last value). -/
inductive ContOutcome
  | normal (clicks : Nat)
  | threw
deriving DecidableEq, Repr

/-- Continuation of `updateOutput` after the conversion response arrives
(DownloadButton lines 59–73).  It reads the shared `currentOutput` at
resolution time, not the value it was invoked with.  `response.json()`
rejecting, reading `.toString()` of an absent `statusCode`, and indexing an
absent `responseData.outputs` all raise, which escapes the handler. -/
def updateCont (s : SharedState) (resp : ConvResp) : SharedState × ContOutcome :=
  match resp.body with
  | none => (s, ContOutcome.threw)
  | some b =>
    if !resp.ok || b.falsy then
      ({ s with status := Status.failed }, ContOutcome.normal 0)
    else
      match b.statusCode with
      | none => (s, ContOutcome.threw)
      | some n =>
        if !(startsWith2 n) then
          ({ s with status := Status.failed }, ContOutcome.normal 0)
        else
          match b.outputs with
          | none => (s, ContOutcome.threw)
          | some outs =>
            let key := "source." ++ s.currentOutput
            let s1 : SharedState := { s with outputs := setOut s.outputs key (outs.lookup key) }
            let s2 : SharedState := { s1 with outputData := getOut s1.outputs key }
            let fin := finishDownload s2
            (fin.1, ContOutcome.normal fin.2)

/-- Observable outcome of one complete `updateOutput` call: final shared
state, the conversion requests issued, the download triggers, and whether an
exception escaped the handler. -/
structure UpdResult where
  state : SharedState
  requests : List ConvRequest
  clicks : Nat
  threw : Bool
deriving DecidableEq, Repr

/-- One complete `updateOutput` call with no interleaving: the synchronous
prefix followed, on a cache miss, by the continuation applied to the
response. -/
def updateOutput (code : String) (s : SharedState) (value : String)
    (resp : ConvResp) : UpdResult :=
  match updatePre code s value with
  | (s1, PreAction.done c) => ⟨s1, [], c, false⟩
  | (s1, PreAction.fetching req) =>
    match updateCont s1 resp with
    | (s2, ContOutcome.normal c) => ⟨s2, [req], c, false⟩
    | (s2, ContOutcome.threw) => ⟨s2, [req], 0, true⟩

/-- JS template interpolation of a string-or-undefined value (`undefined`
renders as the text "undefined"). -/
def jsInterp : Option String → String
  | some s => s
  | none => "undefined"

/-- The parts of the download anchor's `data:` URL: media type, optional
charset parameter, whether the content is base64-framed, and the content
itself (held before percent/base64 framing, which is injective and reversed
by the browser). -/
structure DataRef where
  mime : String
  charset : Option String
  isBase64 : Bool
  content : String
deriving DecidableEq, Repr

/-- The reactive `currentMimeType` (DownloadButton lines 26–27). -/
def currentMimeType (currentOutput : String) : Option String :=
  if currentOutput = "kcl" then some "text/plain" else CADMIMETypes.lookup currentOutput

/-- The reactive `dataUrl` (DownloadButton lines 28–31): the kcl
pseudo-format embeds the source text under text/plain; concrete formats embed
the base64 payload under the table's MIME type. -/
def dataUrl (currentOutput code : String) (outputData : Option String) : DataRef :=
  if currentOutput = "kcl" then
    { mime := "text/plain", charset := some "utf-8", isBase64 := false, content := code }
  else
    { mime := jsInterp (currentMimeType currentOutput)
    , charset := none
    , isBase64 := true
    , content := jsInterp outputData }

/-!
Server-side conversion proxy,
src/src/routes/api/convert/[output_format]/+server.ts.
-/

/-- A JSON field value of the proxy's response body (only numbers and strings
are needed to state the properties of interest; nested values can be read as
their serialised text). -/
inductive JVal
  | num (n : Nat)
  | str (s : String)
deriving DecidableEq, Repr

/-- A request the proxy sends to the upstream conversion service
(+server.ts lines 24–34): target output format (the path parameter of
`endpoints.convert`, modelled from the spec since `$lib/endpoints` is not
under src/), the Content-Type header value, the Authorization header value,
and the forwarded body. -/
structure UpstreamReq where
  target : String
  contentType : String
  authorization : String
  body : String
deriving DecidableEq, Repr

/-- The upstream conversion service's response as the proxy observes it:
HTTP status and the fields of its JSON body (the external contract specifies
a JSON object, so the parsed field list is taken as given). -/
structure UpstreamResp where
  status : Nat
  data : List (String × JVal)
deriving DecidableEq, Repr

/-- What the proxy returns to the client: a thrown HTTP error (status and
message) or a JSON object given by its field list. -/
inductive ProxyOut
  | httpError (status : Nat) (msg : String)
  | jsonOut (fields : List (String × JVal))
deriving DecidableEq, Repr

/-- Field access on a JS object literal built left to right: a later entry
with the same key shadows an earlier one, as in `{statusCode: s, ...data}`. -/
def objGet : List (String × JVal) → String → Option JVal
  | [], _ => none
  | (k1, v) :: rest, k =>
    match objGet rest k with
    | some w => some w
    | none => if k = k1 then some v else none

/-- The proxy's response body `{ statusCode: response.status, ...data }`
(+server.ts lines 38–41): the explicit statusCode entry first, then the
spread upstream fields, which shadow it on key collision. -/
def convertResponseFields (status : Nat) (data : List (String × JVal)) :
    List (String × JVal) :=
  ("statusCode", JVal.num status) :: data

/-- The `POST` handler of the conversion proxy (+server.ts lines 12–43).
The credential is the auth cookie in production and the configured
`VITE_API_TOKEN` otherwise; validation rejections are produced before any
upstream request.  The single upstream response is supplied as a parameter
and the list of upstream requests actually issued is returned alongside the
handler's output. -/
def convertPOST (prod : Bool) (cookieToken envToken : Option String)
    (body : String) (output_format : Option String) (upstream : UpstreamResp) :
    ProxyOut × List UpstreamReq :=
  let token : Option String := if prod then cookieToken else envToken
  match token with
  | none => (ProxyOut.httpError 401 "You must be logged in to use this API.", [])
  | some t =>
    if t.isEmpty then
      (ProxyOut.httpError 401 "You must be logged in to use this API.", [])
    else if body.isEmpty then
      (ProxyOut.httpError 422 "Please include the model as your fetch request body.", [])
    else
      match output_format with
      | none => (ProxyOut.httpError 422 "Please include the output format in the URL.", [])
      | some f =>
        if f.isEmpty then
          (ProxyOut.httpError 422 "Please include the output format in the URL.", [])
        else if !(CADMIMETypes.any (fun p => f = p.1)) then
          (ProxyOut.httpError 422 "Invalid output format.", [])
        else
          ( ProxyOut.jsonOut (convertResponseFields upstream.status upstream.data)
          , [ { target := f
              , contentType := "application/octect-stream"
              , authorization := "Bearer " ++ t
              , body := body } ] )

/-!
Module-evaluation model for the generation-view proxy, src/unnamed/part_001.
-/

/-- A top-level item of a JS module: a declaration binding a name (imports,
consts, function declarations — all hoisted to module scope), or an
expression statement together with the free variable names it references. -/
inductive TopItem
  | bind (name : String)
  | stmt (refs : List String)
deriving DecidableEq, Repr

/-- Host globals visible to module code. -/
def jsGlobals : List String := ["console"]

/-- The names bound at the top level of a module. -/
def moduleBindings (items : List TopItem) : List String :=
  items.filterMap (fun i =>
    match i with
    | TopItem.bind n => some n
    | TopItem.stmt _ => none)

/-- Outcome of evaluating a module's top level. -/
inductive ModuleEval
  | ok
  | referenceError (name : String)
deriving DecidableEq, Repr

/-- Evaluate a module's top level: the first expression statement that
references a name bound neither at module scope nor globally stops
evaluation with a ReferenceError naming that variable. -/
def evalModule (items : List TopItem) : ModuleEval :=
  let scope := jsGlobals ++ moduleBindings items
  match items.findSome? (fun i =>
    match i with
    | TopItem.stmt refs => refs.find? (fun r => !scope.contains r)
    | TopItem.bind _ => none) with
  | some n => ModuleEval.referenceError n
  | none => ModuleEval.ok

/-- The top level of src/unnamed/part_001 (the generation-view proxy):
imports bind AUTH_COOKIE_NAME, endpoints, error and json (PromptResponse and
RequestHandler are type-only), `env` is imported, `LoadResponse` is a
type-only export, `POST` is a top-level const, and the final statement is
`console.log("TOKEN:", token)` (line 32), whose value references are
`console` and `token`. -/
def part001TopLevel : List TopItem :=
  [ TopItem.bind "AUTH_COOKIE_NAME"
  , TopItem.bind "endpoints"
  , TopItem.bind "error"
  , TopItem.bind "json"
  , TopItem.bind "env"
  , TopItem.bind "POST"
  , TopItem.stmt ["console", "token"] ]

/-- The names declared inside the `POST` handler's own function scope in
part_001 (its destructured parameters and its consts, lines 11–27); `token`
is among them and holds the bearer credential (line 12). -/
def part001PostLocals : List String :=
  ["cookies", "fetch", "request", "token", "body", "response", "data"]

/-!
Helper lemmas.
-/

/-- When the synchronous prefix suspends on a fetch, the complete call issues
exactly that one request, whatever the response. -/
theorem updateOutput_requests_of_fetching (code : String) (s : SharedState)
    (v : String) (resp : ConvResp) (s1 : SharedState) (req : ConvRequest)
    (h : updatePre code s v = (s1, PreAction.fetching req)) :
    (updateOutput code s v resp).requests = [req] := by
  unfold updateOutput
  rw [h]
  rcases h2 : updateCont s1 resp with ⟨s2, c⟩
  cases c <;> simp [h2]

/-- A supported concrete format is not the kcl pseudo-format. -/
theorem supported_ne_kcl (f : String) (hf : f ∈ CADMIMETypes.map Prod.fst) :
    f ≠ "kcl" := by
  simp [CADMIMETypes] at hf
  rcases hf with rfl | rfl | rfl | rfl | rfl | rfl | rfl <;> decide

/-- On a cache miss for a non-kcl format, the synchronous prefix suspends on
the conversion request built from the canonical source payload. -/
theorem updatePre_miss (code : String) (s : SharedState) (f : String)
    (hkcl : f ≠ "kcl")
    (hmiss : truthyAt s.outputs ("source." ++ f) = false) :
    updatePre code s f
      = ({ s with currentOutput := f, status := Status.loading }
        , PreAction.fetching
            { target := f
            , contentType := "application/octet-stream"
            , body := base64ToBlob (getOut s.outputs "source.gltf") }) := by
  unfold updatePre
  simp [hkcl, hmiss]

/-- On a cache hit for a non-kcl format, the synchronous prefix finishes in
the ready state with one download trigger and the cached payload copied into
outputData. -/
theorem updatePre_hit (code : String) (s : SharedState) (f : String)
    (hkcl : f ≠ "kcl")
    (hhit : truthyAt s.outputs ("source." ++ f) = true) :
    updatePre code s f
      = ({ s with
            currentOutput := f
            status := Status.ready
            outputData := getOut s.outputs ("source." ++ f) }
        , PreAction.done 1) := by
  have hopt : optTruthy (getOut s.outputs ("source." ++ f)) = true := hhit
  unfold updatePre finishDownload
  simp [hkcl, hhit, hopt]

/-- Reading back the key just written into the outputs mapping yields the
written value. -/
theorem getOut_setOut_self (m : OutMap) (k : String) (v : Option String) :
    getOut (setOut m k v) k = v := by
  simp [getOut, setOut, List.lookup]

/-- A string different from the empty string has isEmpty false. -/
theorem isEmpty_false_of_ne (s : String) (h : s ≠ "") : s.isEmpty = false := by
  rcases he : s.isEmpty with _ | _
  · rfl
  · exact absurd (String.isEmpty_iff s |>.mp he) h

/-- A key absent from an association list's keys has no lookup entry. -/
theorem lookup_eq_none_of_not_mem (l : List (String × JVal)) (k : String)
    (h : k ∉ l.map Prod.fst) : l.lookup k = none := by
  induction l with
  | nil => rfl
  | cons p rest ih =>
    rcases p with ⟨k1, v1⟩
    rw [List.map_cons] at h
    have h1 : k ≠ k1 := fun e => h (by simp [e])
    have h2 : k ∉ rest.map Prod.fst := fun e => h (List.mem_cons_of_mem _ e)
    have hb : (k == k1) = false := beq_eq_false_iff_ne.mpr h1
    simp [List.lookup, hb, ih h2]

/-- A key without an entry in an association list has no last-wins entry
either. -/
theorem objGet_eq_none_of_lookup_none (l : List (String × JVal)) (k : String)
    (h : l.lookup k = none) : objGet l k = none := by
  induction l with
  | nil => rfl
  | cons p rest ih =>
    rcases p with ⟨k1, v⟩
    by_cases hk : k = k1
    · subst hk
      simp [List.lookup] at h
    · have hb : (k == k1) = false := beq_eq_false_iff_ne.mpr hk
      rw [List.lookup, hb] at h
      simp [objGet, ih h, hk]

/-- Over a field list with pairwise distinct keys, last-wins access agrees
with first-match lookup. -/
theorem objGet_eq_lookup_of_nodup (l : List (String × JVal)) (k : String) (v : JVal)
    (hnd : (l.map Prod.fst).Nodup) (h : l.lookup k = some v) : objGet l k = some v := by
  induction l with
  | nil => simp [List.lookup] at h
  | cons p rest ih =>
    rcases p with ⟨k1, v1⟩
    have hnd2 : (rest.map Prod.fst).Nodup := (List.nodup_cons.mp (by simpa using hnd)).2
    have hk1 : k1 ∉ rest.map Prod.fst := (List.nodup_cons.mp (by simpa using hnd)).1
    by_cases hk : k = k1
    · subst hk
      simp [List.lookup] at h
      subst h
      have hrest : rest.lookup k = none := lookup_eq_none_of_not_mem rest k hk1
      simp [objGet, objGet_eq_none_of_lookup_none rest k hrest]
    · have hb : (k == k1) = false := beq_eq_false_iff_ne.mpr hk
      rw [List.lookup, hb] at h
      simp [objGet, ih hnd2 h]

/-!
Claim theorems.
-/

/-- C1: for every supported concrete format f whose entry is absent (or
empty) in the outputs mapping, a selection event for f issues exactly one
conversion request, whose body is the base64-decoded payload stored under the
canonical source key outputs["source.gltf"] and whose target path parameter
equals f. -/
theorem updateOutput_miss_issues_single_request
    (code : String) (s : SharedState) (f src : String) (resp : ConvResp)
    (hf : f ∈ CADMIMETypes.map Prod.fst)
    (hmiss : truthyAt s.outputs ("source." ++ f) = false)
    (hsrc : getOut s.outputs "source.gltf" = some src) :
    (updateOutput code s f resp).requests
      = [{ target := f
         , contentType := "application/octet-stream"
         , body := base64ToBlob (some src) }] := by
  have hkcl := supported_ne_kcl f hf
  have hpre := updatePre_miss code s f hkcl hmiss
  rw [updateOutput_requests_of_fetching code s f resp _ _ hpre, hsrc]

/-- Witness for C1 at a concrete cache-miss selection of obj. -/
theorem updateOutput_miss_issues_single_request_witness :
    (updateOutput ""
        ⟨"gltf", Status.ready, [("source.gltf", some "Z2x0Zg")], none⟩
        "obj" ⟨false, none⟩).requests
      = [{ target := "obj"
         , contentType := "application/octet-stream"
         , body := base64ToBlob (some "Z2x0Zg") }] :=
  updateOutput_miss_issues_single_request ""
    ⟨"gltf", Status.ready, [("source.gltf", some "Z2x0Zg")], none⟩
    "obj" "Z2x0Zg" ⟨false, none⟩ (by decide) (by decide) (by decide)

/-- C2: for every supported format f whose cache entry is present and
non-empty, a selection event for f ends with status ready and one download
trigger while issuing no conversion request, and selecting the same cached
format again still issues no request. -/
theorem updateOutput_hit_ready_no_request
    (code : String) (s : SharedState) (f : String) (resp1 resp2 : ConvResp)
    (hf : f ∈ CADMIMETypes.map Prod.fst)
    (hhit : truthyAt s.outputs ("source." ++ f) = true) :
    (updateOutput code s f resp1).state.status = Status.ready ∧
    (updateOutput code s f resp1).clicks = 1 ∧
    (updateOutput code s f resp1).requests = [] ∧
    (updateOutput code (updateOutput code s f resp1).state f resp2).requests = [] := by
  have hkcl := supported_ne_kcl f hf
  have hpre := updatePre_hit code s f hkcl hhit
  have h1 : updateOutput code s f resp1
      = ⟨{ s with
            currentOutput := f
            status := Status.ready
            outputData := getOut s.outputs ("source." ++ f) }, [], 1, false⟩ := by
    unfold updateOutput
    rw [hpre]
  rw [h1]
  refine ⟨rfl, rfl, rfl, ?_⟩
  have hpre2 := updatePre_hit code
    { s with
        currentOutput := f
        status := Status.ready
        outputData := getOut s.outputs ("source." ++ f) } f hkcl (by simpa using hhit)
  unfold updateOutput
  rw [hpre2]

/-- Witness for C2 at a concrete cache-hit selection of stl, twice in a
row. -/
theorem updateOutput_hit_ready_no_request_witness :
    (updateOutput ""
        ⟨"gltf", Status.ready,
          [("source.gltf", some "Z2x0Zg"), ("source.stl", some "c3Rs")], none⟩
        "stl" ⟨false, none⟩).state.status = Status.ready ∧
    (updateOutput ""
        ⟨"gltf", Status.ready,
          [("source.gltf", some "Z2x0Zg"), ("source.stl", some "c3Rs")], none⟩
        "stl" ⟨false, none⟩).clicks = 1 ∧
    (updateOutput ""
        ⟨"gltf", Status.ready,
          [("source.gltf", some "Z2x0Zg"), ("source.stl", some "c3Rs")], none⟩
        "stl" ⟨false, none⟩).requests = [] ∧
    (updateOutput ""
        (updateOutput ""
          ⟨"gltf", Status.ready,
            [("source.gltf", some "Z2x0Zg"), ("source.stl", some "c3Rs")], none⟩
          "stl" ⟨false, none⟩).state "stl" ⟨false, none⟩).requests = [] :=
  updateOutput_hit_ready_no_request ""
    ⟨"gltf", Status.ready,
      [("source.gltf", some "Z2x0Zg"), ("source.stl", some "c3Rs")], none⟩
    "stl" ⟨false, none⟩ ⟨false, none⟩ (by decide) (by decide)

/-- C3 as stated is false on the code: a cache-miss selection of obj issues
the conversion request, but when the response body cannot be parsed the
exception escapes the handler and the final status is loading, not failed. -/
theorem updateOutput_unparseable_body_counterexample :
    (updateOutput ""
        ⟨"gltf", Status.ready, [("source.gltf", some "Z2x0Zg")], none⟩
        "obj" ⟨false, none⟩).requests.length = 1 ∧
    (updateOutput ""
        ⟨"gltf", Status.ready, [("source.gltf", some "Z2x0Zg")], none⟩
        "obj" ⟨false, none⟩).threw = true ∧
    (updateOutput ""
        ⟨"gltf", Status.ready, [("source.gltf", some "Z2x0Zg")], none⟩
        "obj" ⟨false, none⟩).state.status = Status.loading ∧
    (updateOutput ""
        ⟨"gltf", Status.ready, [("source.gltf", some "Z2x0Zg")], none⟩
        "obj" ⟨false, none⟩).state.status ≠ Status.failed := by
  decide

/-- C3 (amended): on a cache-miss selection of a supported concrete format f,
a parsed response with a non-success HTTP status, a falsy parsed value, or an
embedded statusCode outside the 2xx range ends with status failed; a parsed
two-layer success whose outputs object holds no non-empty payload for f also
ends failed; an unparseable body, a success body missing its statusCode
field, or a success body missing its outputs object makes the handler throw
and leaves status loading.  In every case no truthy payload is cached for f,
no download is triggered, and exactly the one original request was issued. -/
theorem updateOutput_failure_semantics
    (code : String) (s : SharedState) (f : String)
    (hf : f ∈ CADMIMETypes.map Prod.fst)
    (hmiss : truthyAt s.outputs ("source." ++ f) = false) :
    (∀ fl sc os,
      (updateOutput code s f ⟨false, some ⟨fl, sc, os⟩⟩).state.status = Status.failed ∧
      (updateOutput code s f ⟨false, some ⟨fl, sc, os⟩⟩).clicks = 0 ∧
      (updateOutput code s f ⟨false, some ⟨fl, sc, os⟩⟩).requests.length = 1 ∧
      truthyAt (updateOutput code s f ⟨false, some ⟨fl, sc, os⟩⟩).state.outputs
        ("source." ++ f) = false) ∧
    (∀ ok sc os,
      (updateOutput code s f ⟨ok, some ⟨true, sc, os⟩⟩).state.status = Status.failed ∧
      (updateOutput code s f ⟨ok, some ⟨true, sc, os⟩⟩).clicks = 0 ∧
      (updateOutput code s f ⟨ok, some ⟨true, sc, os⟩⟩).requests.length = 1 ∧
      truthyAt (updateOutput code s f ⟨ok, some ⟨true, sc, os⟩⟩).state.outputs
        ("source." ++ f) = false) ∧
    (∀ ok os n, startsWith2 n = false →
      (updateOutput code s f ⟨ok, some ⟨false, some n, os⟩⟩).state.status = Status.failed ∧
      (updateOutput code s f ⟨ok, some ⟨false, some n, os⟩⟩).clicks = 0 ∧
      (updateOutput code s f ⟨ok, some ⟨false, some n, os⟩⟩).requests.length = 1 ∧
      truthyAt (updateOutput code s f ⟨ok, some ⟨false, some n, os⟩⟩).state.outputs
        ("source." ++ f) = false) ∧
    (∀ n outs, startsWith2 n = true →
      optTruthy (outs.lookup ("source." ++ f)) = false →
      (updateOutput code s f ⟨true, some ⟨false, some n, some outs⟩⟩).state.status
        = Status.failed ∧
      (updateOutput code s f ⟨true, some ⟨false, some n, some outs⟩⟩).clicks = 0 ∧
      (updateOutput code s f ⟨true, some ⟨false, some n, some outs⟩⟩).requests.length = 1 ∧
      truthyAt (updateOutput code s f
        ⟨true, some ⟨false, some n, some outs⟩⟩).state.outputs ("source." ++ f) = false) ∧
    (∀ ok,
      (updateOutput code s f ⟨ok, none⟩).threw = true ∧
      (updateOutput code s f ⟨ok, none⟩).state.status = Status.loading ∧
      (updateOutput code s f ⟨ok, none⟩).clicks = 0 ∧
      (updateOutput code s f ⟨ok, none⟩).requests.length = 1 ∧
      truthyAt (updateOutput code s f ⟨ok, none⟩).state.outputs
        ("source." ++ f) = false) ∧
    (∀ os,
      (updateOutput code s f ⟨true, some ⟨false, none, os⟩⟩).threw = true ∧
      (updateOutput code s f ⟨true, some ⟨false, none, os⟩⟩).state.status = Status.loading ∧
      (updateOutput code s f ⟨true, some ⟨false, none, os⟩⟩).clicks = 0 ∧
      (updateOutput code s f ⟨true, some ⟨false, none, os⟩⟩).requests.length = 1 ∧
      truthyAt (updateOutput code s f ⟨true, some ⟨false, none, os⟩⟩).state.outputs
        ("source." ++ f) = false) ∧
    (∀ n, startsWith2 n = true →
      (updateOutput code s f ⟨true, some ⟨false, some n, none⟩⟩).threw = true ∧
      (updateOutput code s f ⟨true, some ⟨false, some n, none⟩⟩).state.status
        = Status.loading ∧
      (updateOutput code s f ⟨true, some ⟨false, some n, none⟩⟩).clicks = 0 ∧
      (updateOutput code s f ⟨true, some ⟨false, some n, none⟩⟩).requests.length = 1 ∧
      truthyAt (updateOutput code s f ⟨true, some ⟨false, some n, none⟩⟩).state.outputs
        ("source." ++ f) = false) := by
  have hkcl := supported_ne_kcl f hf
  have hpre := updatePre_miss code s f hkcl hmiss
  refine ⟨?_, ?_, ?_, ?_, ?_, ?_, ?_⟩
  · intro fl sc os
    unfold updateOutput
    rw [hpre]
    simp [updateCont, hmiss]
  · intro ok sc os
    unfold updateOutput
    rw [hpre]
    simp [updateCont, hmiss]
  · intro ok os n h2
    unfold updateOutput
    rw [hpre]
    cases ok <;> simp [updateCont, hmiss, h2]
  · intro n outs h2 hout
    unfold updateOutput
    rw [hpre]
    simp [updateCont, finishDownload, h2, getOut_setOut_self, truthyAt, hout]
  · intro ok
    unfold updateOutput
    rw [hpre]
    simp [updateCont, hmiss]
  · intro os
    unfold updateOutput
    rw [hpre]
    simp [updateCont, hmiss]
  · intro n h2
    unfold updateOutput
    rw [hpre]
    simp [updateCont, hmiss, h2]

/-- Witness for C3 (amended) at concrete inputs: an upstream HTTP failure
ends failed with nothing cached, and an unparseable body leaves status
loading. -/
theorem updateOutput_failure_semantics_witness :
    ((updateOutput ""
        ⟨"gltf", Status.ready, [("source.gltf", some "Z2x0Zg")], none⟩
        "obj" ⟨false, some ⟨false, some 422, none⟩⟩).state.status = Status.failed ∧
     (updateOutput ""
        ⟨"gltf", Status.ready, [("source.gltf", some "Z2x0Zg")], none⟩
        "obj" ⟨false, some ⟨false, some 422, none⟩⟩).clicks = 0 ∧
     (updateOutput ""
        ⟨"gltf", Status.ready, [("source.gltf", some "Z2x0Zg")], none⟩
        "obj" ⟨false, some ⟨false, some 422, none⟩⟩).requests.length = 1 ∧
     truthyAt (updateOutput ""
        ⟨"gltf", Status.ready, [("source.gltf", some "Z2x0Zg")], none⟩
        "obj" ⟨false, some ⟨false, some 422, none⟩⟩).state.outputs
        "source.obj" = false) ∧
    ((updateOutput ""
        ⟨"gltf", Status.ready, [("source.gltf", some "Z2x0Zg")], none⟩
        "obj" ⟨true, none⟩).threw = true ∧
     (updateOutput ""
        ⟨"gltf", Status.ready, [("source.gltf", some "Z2x0Zg")], none⟩
        "obj" ⟨true, none⟩).state.status = Status.loading) := by
  have h := updateOutput_failure_semantics ""
    ⟨"gltf", Status.ready, [("source.gltf", some "Z2x0Zg")], none⟩
    "obj" (by decide) (by decide)
  refine ⟨h.1 false (some 422) none, ?_, ?_⟩
  · exact (h.2.2.2.2.1 true).1
  · exact (h.2.2.2.2.1 true).2.1

/-- C4: on a cache-miss selection of a supported concrete format f, a
response that succeeds on both layers and carries a non-empty payload under
the key for f writes that payload into the shared outputs mapping at f, ends
with status ready, and triggers exactly one download. -/
theorem updateOutput_success_caches_and_downloads
    (code : String) (s : SharedState) (f payload : String) (n : Int)
    (outs : List (String × String))
    (hf : f ∈ CADMIMETypes.map Prod.fst)
    (hmiss : truthyAt s.outputs ("source." ++ f) = false)
    (h2 : startsWith2 n = true)
    (hpay : outs.lookup ("source." ++ f) = some payload)
    (hne : payload ≠ "") :
    (updateOutput code s f ⟨true, some ⟨false, some n, some outs⟩⟩).state.status
      = Status.ready ∧
    getOut (updateOutput code s f ⟨true, some ⟨false, some n, some outs⟩⟩).state.outputs
      ("source." ++ f) = some payload ∧
    (updateOutput code s f ⟨true, some ⟨false, some n, some outs⟩⟩).clicks = 1 ∧
    (updateOutput code s f ⟨true, some ⟨false, some n, some outs⟩⟩).requests.length = 1 := by
  have hkcl := supported_ne_kcl f hf
  have hpre := updatePre_miss code s f hkcl hmiss
  have hemp : payload.isEmpty = false := by
    rcases h : payload.isEmpty with _ | _
    · rfl
    · exact absurd (String.isEmpty_iff payload |>.mp h) hne
  unfold updateOutput
  rw [hpre]
  simp [updateCont, finishDownload, h2, hpay, getOut_setOut_self, optTruthy, hemp]

/-- Witness for C4 at a concrete successful conversion of obj. -/
theorem updateOutput_success_caches_and_downloads_witness :
    (updateOutput ""
        ⟨"gltf", Status.ready, [("source.gltf", some "Z2x0Zg")], none⟩
        "obj" ⟨true, some ⟨false, some 200, some [("source.obj", "T0JK")]⟩⟩).state.status
      = Status.ready ∧
    getOut (updateOutput ""
        ⟨"gltf", Status.ready, [("source.gltf", some "Z2x0Zg")], none⟩
        "obj" ⟨true, some ⟨false, some 200, some [("source.obj", "T0JK")]⟩⟩).state.outputs
      "source.obj" = some "T0JK" ∧
    (updateOutput ""
        ⟨"gltf", Status.ready, [("source.gltf", some "Z2x0Zg")], none⟩
        "obj" ⟨true, some ⟨false, some 200, some [("source.obj", "T0JK")]⟩⟩).clicks = 1 ∧
    (updateOutput ""
        ⟨"gltf", Status.ready, [("source.gltf", some "Z2x0Zg")], none⟩
        "obj" ⟨true, some ⟨false, some 200,
          some [("source.obj", "T0JK")]⟩⟩).requests.length = 1 :=
  updateOutput_success_caches_and_downloads ""
    ⟨"gltf", Status.ready, [("source.gltf", some "Z2x0Zg")], none⟩
    "obj" "T0JK" 200 [("source.obj", "T0JK")]
    (by decide) (by decide) (by decide) (by decide) (by decide)

/-- C5 is violated by the code (the spec itself mandates the staleness guard
as a correctness fix over the code): with only the canonical gltf cached,
selecting obj issues request A, then selecting stl before A resolves issues
request B; when A's two-layer-success response (carrying only the obj
payload) arrives while currentOutput is stl and status is loading, the
continuation overwrites status to failed for the still-pending stl selection
and writes an undefined value into the stl cache slot. -/
theorem stale_response_overwrites_status :
    (updatePre ""
        ⟨"gltf", Status.ready, [("source.gltf", some "Z2x0Zg")], none⟩ "obj").2
      = PreAction.fetching
          ⟨"obj", "application/octet-stream", base64ToBlob (some "Z2x0Zg")⟩ ∧
    (updatePre ""
        (updatePre ""
          ⟨"gltf", Status.ready, [("source.gltf", some "Z2x0Zg")], none⟩ "obj").1
        "stl").2
      = PreAction.fetching
          ⟨"stl", "application/octet-stream", base64ToBlob (some "Z2x0Zg")⟩ ∧
    (updatePre ""
        (updatePre ""
          ⟨"gltf", Status.ready, [("source.gltf", some "Z2x0Zg")], none⟩ "obj").1
        "stl").1.currentOutput = "stl" ∧
    (updatePre ""
        (updatePre ""
          ⟨"gltf", Status.ready, [("source.gltf", some "Z2x0Zg")], none⟩ "obj").1
        "stl").1.status = Status.loading ∧
    (updateCont
        (updatePre ""
          (updatePre ""
            ⟨"gltf", Status.ready, [("source.gltf", some "Z2x0Zg")], none⟩ "obj").1
          "stl").1
        ⟨true, some ⟨false, some 200, some [("source.obj", "T0JK")]⟩⟩).1.status
      = Status.failed ∧
    (updateCont
        (updatePre ""
          (updatePre ""
            ⟨"gltf", Status.ready, [("source.gltf", some "Z2x0Zg")], none⟩ "obj").1
          "stl").1
        ⟨true, some ⟨false, some 200, some [("source.obj", "T0JK")]⟩⟩).2
      = ContOutcome.normal 0 := by
  decide

/-- C6: selecting the kcl pseudo-format never issues a conversion request;
without source text the final status is failed with no download, and with
source text the final status is ready, one download is triggered, and the
download reference holds exactly that text under the text/plain content
type. -/
theorem updateOutput_kcl_no_network (code : String) (s : SharedState)
    (resp : ConvResp) :
    (updateOutput code s "kcl" resp).requests = [] ∧
    (code = "" →
      (updateOutput code s "kcl" resp).state.status = Status.failed ∧
      (updateOutput code s "kcl" resp).clicks = 0) ∧
    (code ≠ "" →
      (updateOutput code s "kcl" resp).state.status = Status.ready ∧
      (updateOutput code s "kcl" resp).clicks = 1 ∧
      (dataUrl "kcl" code (updateOutput code s "kcl" resp).state.outputData).mime
        = "text/plain" ∧
      (dataUrl "kcl" code (updateOutput code s "kcl" resp).state.outputData).content
        = code) := by
  by_cases hc : code = ""
  · subst hc
    have he : "".isEmpty = true := rfl
    exact ⟨by simp [updateOutput, updatePre, he],
      fun _ => ⟨by simp [updateOutput, updatePre, he],
        by simp [updateOutput, updatePre, he]⟩,
      fun h => absurd rfl h⟩
  · have hemp : code.isEmpty = false := by
      rcases h : code.isEmpty with _ | _
      · rfl
      · exact absurd (String.isEmpty_iff code |>.mp h) hc
    exact ⟨by simp [updateOutput, updatePre, hemp],
      fun h => absurd h hc,
      fun _ => ⟨by simp [updateOutput, updatePre, hemp],
        by simp [updateOutput, updatePre, hemp],
        by simp [dataUrl],
        by simp [dataUrl]⟩⟩

/-- Witness for C6 at concrete inputs: empty source text fails with no
request; the text cube(1) yields ready, one download, and a text/plain data
reference holding exactly that text. -/
theorem updateOutput_kcl_no_network_witness :
    ((updateOutput "" ⟨"gltf", Status.ready, [], none⟩ "kcl" ⟨false, none⟩).requests = [] ∧
     (updateOutput "" ⟨"gltf", Status.ready, [], none⟩ "kcl" ⟨false, none⟩).state.status
       = Status.failed ∧
     (updateOutput "" ⟨"gltf", Status.ready, [], none⟩ "kcl" ⟨false, none⟩).clicks = 0) ∧
    ((updateOutput "cube(1)" ⟨"gltf", Status.ready, [], none⟩ "kcl"
        ⟨false, none⟩).requests = [] ∧
     (updateOutput "cube(1)" ⟨"gltf", Status.ready, [], none⟩ "kcl"
        ⟨false, none⟩).state.status = Status.ready ∧
     (updateOutput "cube(1)" ⟨"gltf", Status.ready, [], none⟩ "kcl"
        ⟨false, none⟩).clicks = 1 ∧
     (dataUrl "kcl" "cube(1)"
        (updateOutput "cube(1)" ⟨"gltf", Status.ready, [], none⟩ "kcl"
          ⟨false, none⟩).state.outputData).mime = "text/plain" ∧
     (dataUrl "kcl" "cube(1)"
        (updateOutput "cube(1)" ⟨"gltf", Status.ready, [], none⟩ "kcl"
          ⟨false, none⟩).state.outputData).content = "cube(1)") := by
  have h1 := updateOutput_kcl_no_network "" ⟨"gltf", Status.ready, [], none⟩ ⟨false, none⟩
  have h2 := updateOutput_kcl_no_network "cube(1)" ⟨"gltf", Status.ready, [], none⟩
    ⟨false, none⟩
  have h2c := h2.2.2 (by decide)
  exact ⟨⟨h1.1, (h1.2.1 rfl).1, (h1.2.1 rfl).2⟩,
    ⟨h2.1, h2c.1, h2c.2.1, h2c.2.2.1, h2c.2.2.2⟩⟩

/-- C7: before any upstream call, the conversion proxy rejects with a 401
authorization error when no credential resolves (production cookie, or the
configured fallback token otherwise), and with a 422 client error when the
request body is empty, when the output format path parameter is missing or
empty, or when the output format is not a supported MIME-mapped format.  In
every rejection no upstream request is issued. -/
theorem convertPOST_validation (prod : Bool) (cookieToken envToken : Option String)
    (body : String) (fmt : Option String) (up : UpstreamResp) :
    (optTruthy (if prod then cookieToken else envToken) = false →
      convertPOST prod cookieToken envToken body fmt up
        = (ProxyOut.httpError 401 "You must be logged in to use this API.", [])) ∧
    (∀ t, (if prod then cookieToken else envToken) = some t → t ≠ "" → body = "" →
      convertPOST prod cookieToken envToken body fmt up
        = (ProxyOut.httpError 422
            "Please include the model as your fetch request body.", [])) ∧
    (∀ t, (if prod then cookieToken else envToken) = some t → t ≠ "" → body ≠ "" →
      optTruthy fmt = false →
      convertPOST prod cookieToken envToken body fmt up
        = (ProxyOut.httpError 422
            "Please include the output format in the URL.", [])) ∧
    (∀ t f, (if prod then cookieToken else envToken) = some t → t ≠ "" → body ≠ "" →
      fmt = some f → f ≠ "" →
      CADMIMETypes.any (fun p => f = p.1) = false →
      convertPOST prod cookieToken envToken body fmt up
        = (ProxyOut.httpError 422 "Invalid output format.", [])) := by
  refine ⟨?_, ?_, ?_, ?_⟩
  · intro h
    unfold convertPOST
    rcases htok : (if prod then cookieToken else envToken) with _ | t
    · rfl
    · rw [htok] at h
      have ht : t.isEmpty = true := by simpa [optTruthy] using h
      simp [ht]
  · intro t ht ht2 hbody
    unfold convertPOST
    rw [ht]
    subst hbody
    have he : "".isEmpty = true := rfl
    simp [isEmpty_false_of_ne t ht2, he]
  · intro t ht ht2 hbody hfmt
    unfold convertPOST
    rw [ht]
    rcases hf : fmt with _ | f
    · simp [isEmpty_false_of_ne t ht2, isEmpty_false_of_ne body hbody]
    · rw [hf] at hfmt
      have hfe : f.isEmpty = true := by simpa [optTruthy] using hfmt
      simp [isEmpty_false_of_ne t ht2, isEmpty_false_of_ne body hbody, hfe]
  · intro t f ht hne hbody hf hf2 hsup
    unfold convertPOST
    rw [ht, hf]
    simp [isEmpty_false_of_ne t hne, isEmpty_false_of_ne body hbody,
      isEmpty_false_of_ne f hf2, hsup]

/-- Witness for C7 at concrete rejections: missing credential, empty body,
missing format parameter, and an unsupported format. -/
theorem convertPOST_validation_witness :
    convertPOST false none none "abc" (some "stl") ⟨200, []⟩
      = (ProxyOut.httpError 401 "You must be logged in to use this API.", []) ∧
    convertPOST false none (some "tok") "" (some "stl") ⟨200, []⟩
      = (ProxyOut.httpError 422
          "Please include the model as your fetch request body.", []) ∧
    convertPOST false none (some "tok") "abc" none ⟨200, []⟩
      = (ProxyOut.httpError 422 "Please include the output format in the URL.", []) ∧
    convertPOST false none (some "tok") "abc" (some "png") ⟨200, []⟩
      = (ProxyOut.httpError 422 "Invalid output format.", []) := by
  refine ⟨?_, ?_, ?_, ?_⟩
  · exact (convertPOST_validation false none none "abc" (some "stl") ⟨200, []⟩).1
      (by decide)
  · exact (convertPOST_validation false none (some "tok") "" (some "stl")
      ⟨200, []⟩).2.1 "tok" rfl (by decide) rfl
  · exact (convertPOST_validation false none (some "tok") "abc" none
      ⟨200, []⟩).2.2.1 "tok" rfl (by decide) (by decide) (by decide)
  · exact (convertPOST_validation false none (some "tok") "abc" (some "png")
      ⟨200, []⟩).2.2.2 "tok" "png" rfl (by decide) (by decide) rfl (by decide)
      (by decide)

/-- C8: for every validated POST, the proxy's JSON response is the upstream
conversion result's fields together with a numeric statusCode field equal to
the upstream HTTP status (the upstream result, typed without a statusCode
field of its own, cannot shadow it). -/
theorem convertPOST_mirrors_upstream (prod : Bool)
    (cookieToken envToken : Option String) (t body f : String) (up : UpstreamResp)
    (ht : (if prod then cookieToken else envToken) = some t)
    (ht2 : t ≠ "") (hb : body ≠ "") (hf2 : f ≠ "")
    (hsup : CADMIMETypes.any (fun p => f = p.1) = true)
    (hnd : (up.data.map Prod.fst).Nodup)
    (hsc : up.data.lookup "statusCode" = none) :
    (convertPOST prod cookieToken envToken body (some f) up).1
      = ProxyOut.jsonOut (convertResponseFields up.status up.data) ∧
    objGet (convertResponseFields up.status up.data) "statusCode"
      = some (JVal.num up.status) ∧
    (∀ k v, up.data.lookup k = some v →
      objGet (convertResponseFields up.status up.data) k = some v) := by
  refine ⟨?_, ?_, ?_⟩
  · unfold convertPOST
    rw [ht]
    simp [isEmpty_false_of_ne t ht2, isEmpty_false_of_ne body hb,
      isEmpty_false_of_ne f hf2, hsup]
  · simp [convertResponseFields, objGet,
      objGet_eq_none_of_lookup_none up.data "statusCode" hsc]
  · intro k v h
    simp [convertResponseFields, objGet, objGet_eq_lookup_of_nodup up.data k v hnd h]

/-- Witness for C8 at a concrete validated request with a completed upstream
conversion. -/
theorem convertPOST_mirrors_upstream_witness :
    (convertPOST false none (some "tok") "abc" (some "stl")
        ⟨200, [("status", JVal.str "completed")]⟩).1
      = ProxyOut.jsonOut
          (convertResponseFields 200 [("status", JVal.str "completed")]) ∧
    objGet (convertResponseFields 200 [("status", JVal.str "completed")]) "statusCode"
      = some (JVal.num 200) ∧
    objGet (convertResponseFields 200 [("status", JVal.str "completed")]) "status"
      = some (JVal.str "completed") := by
  have h := convertPOST_mirrors_upstream false none (some "tok") "tok" "abc" "stl"
    ⟨200, [("status", JVal.str "completed")]⟩ rfl (by decide) (by decide) (by decide)
    (by decide) (by decide) (by decide)
  exact ⟨h.1, h.2.1, h.2.2 "status" (JVal.str "completed") rfl⟩

/-- C9: at a validated request, the proxy issues exactly one upstream request
with the client body forwarded unchanged and the bearer credential attached —
but its Content-Type header is the misspelled literal
application/octect-stream, not the octet-stream content type the claim
names. -/
theorem convertPOST_upstream_request_eval :
    (convertPOST false none (some "tok") "abc" (some "stl")
        ⟨200, [("status", JVal.str "completed")]⟩).2
      = [{ target := "stl"
         , contentType := "application/octect-stream"
         , authorization := "Bearer tok"
         , body := "abc" }] ∧
    "application/octect-stream" ≠ "application/octet-stream" := by
  decide

/-- C10: evaluating the generation-view proxy module stops with a
ReferenceError on the unbound variable token before any request can be
served: its final top-level statement references token, which is bound only
inside the POST handler's own scope (where it holds the bearer credential),
not at module scope. -/
theorem part001_module_reference_error :
    evalModule part001TopLevel = ModuleEval.referenceError "token" ∧
    "token" ∉ moduleBindings part001TopLevel ∧
    "token" ∈ part001PostLocals := by
  decide
